import Mathlib

/-!
Verification of the chatbot backend core: a shallow embedding in Lean 4 of the
catalog search engine (CSVProductRepository), the exchange-rate client
(OpenExchangeRatesService), and the tool orchestrator (LLMService), together
with theorems settling the specified behavioral claims.

Machine numbers are modelled as exact rationals (`ℚ`); where JavaScript
truthiness or NaN/Infinity matter, an explicit `JNum` type is used.
Asynchronous calls that can fail are modelled with `Except String`.
Network interaction is modelled by threading an explicit call counter.
-/

namespace Chatbot

/-! ### String and number utilities -/

/-- JavaScript-style substring test on character lists: `hay.includes(needle)`.
`leadsWith` is list-prefix matching. -/
def leadsWith : List Char → List Char → Bool
  | [], _ => true
  | _ :: _, [] => false
  | a :: as, b :: bs => a == b && leadsWith as bs

/-- `hasSub hay needle` is `hay.includes(needle)` over characters. -/
def hasSub (hay needle : List Char) : Bool :=
  match hay with
  | [] => leadsWith needle []
  | _ :: rest => leadsWith needle hay || hasSub rest needle

/-- `toLowerCase`, character-wise (ASCII; the strings in play are ASCII). -/
def lowerStr (s : String) : String := ⟨s.data.map Char.toLower⟩

/-- `toUpperCase`, character-wise. -/
def upperStr (s : String) : String := ⟨s.data.map Char.toUpper⟩

/-- `trim`: strip leading and trailing whitespace. -/
def trimStr (s : String) : String :=
  ⟨((s.data.dropWhile Char.isWhitespace).reverse.dropWhile
    Char.isWhitespace).reverse⟩

/-- Value of a list of decimal digit characters, most significant first. -/
def digitsVal (ds : List Char) : ℕ :=
  ds.foldl (fun n c => 10 * n + (c.toNat - '0'.toNat)) 0

/-- First match of the regex `(\d+(?:\.\d+)?)` in a character list: the integer
digits and the (possibly empty) fraction digits of the leftmost number. -/
def firstNumber : List Char → Option (List Char × List Char)
  | [] => none
  | c :: rest =>
    if c.isDigit then
      let intPart := (c :: rest).takeWhile Char.isDigit
      let after := (c :: rest).dropWhile Char.isDigit
      match after with
      | '.' :: tl =>
        let fracPart := tl.takeWhile Char.isDigit
        if fracPart.isEmpty then some (intPart, []) else some (intPart, fracPart)
      | _ => some (intPart, [])
    else firstNumber rest

/-- `parseFloat` of the first numeric match — the decimal value
`ip.fp = (ip·10^|fp| + fp) / 10^|fp|` — or `0` when there is none
(the fallback of `Product.getNumericPrice`). -/
def parseLeadingNumber (s : String) : ℚ :=
  match firstNumber s.toList with
  | none => 0
  | some (ip, fp) =>
    mkRat (digitsVal ip * 10 ^ fp.length + digitsVal fp) (10 ^ fp.length)

/-! ### Product entity (`Product` in `product.entity`) -/

structure Product where
  displayTitle : String
  embeddingText : String
  url : String
  imageUrl : String
  productType : String
  discount : ℕ          -- 0 or 1 (boolean-like)
  price : String         -- e.g. "13.0 - 15.0 USD" or "900.0 USD"
  variants : Option String
  createDate : String
  deriving Repr, DecidableEq

/-- `Product.hasDiscount`: `this.discount === 1`. -/
def Product.hasDiscount (p : Product) : Bool := p.discount == 1

/-- `Product.getNumericPrice`: first numeric token of the price string,
`0` if parsing fails. -/
def Product.getNumericPrice (p : Product) : ℚ := parseLeadingNumber p.price

/-- `Product.hasVariants`: `Boolean(this.variants && this.variants.trim().length > 0)`. -/
def Product.hasVariants (p : Product) : Bool :=
  match p.variants with
  | none => false
  | some v => decide ((trimStr v).length > 0)

/-- `Product.getSummary`: display title, price, and an "(On Sale)" suffix. -/
def Product.getSummary (p : Product) : String :=
  p.displayTitle ++ " - " ++ p.price ++ (if p.hasDiscount then " (On Sale)" else "")

/-- `Product.matchesQuery`: the query appears (case-insensitively) in the
concatenation of title and embedding text. -/
def Product.matchesQuery (p : Product) (query : String) : Bool :=
  hasSub (lowerStr (p.displayTitle ++ " " ++ p.embeddingText)).data
    (lowerStr query).data

/-! ### Catalog search engine (`CSVProductRepository.searchProducts`) -/

structure ProductSearchCriteria where
  query : Option String := none
  productType : Option String := none
  minPrice : Option ℚ := none
  maxPrice : Option ℚ := none
  hasDiscount : Option Bool := none
  hasVariants : Option Bool := none
  limit : Option ℕ := none
  offset : Option ℕ := none
  deriving Repr, DecidableEq

structure ProductSearchResult where
  products : List Product
  total : ℕ
  hasMore : Bool
  deriving Repr, DecidableEq

/-- Repository state: the loaded product list and the `isInitialized` flag
(named `inited` here). -/
structure RepoState where
  products : List Product
  inited : Bool
  deriving Repr

/-- The filter cascade of `searchProducts`, applied in source order:
query, productType, hasDiscount, hasVariants, then price range. -/
def filteredProducts (st : RepoState) (c : ProductSearchCriteria) : List Product :=
  let l0 := st.products
  let l1 := match c.query with
    | some q => if (trimStr q).length > 0
        then l0.filter (fun p => p.matchesQuery (trimStr (lowerStr q))) else l0
    | none => l0
  let l2 := match c.productType with
    | some t => if (trimStr t).length > 0
        then l1.filter (fun p => lowerStr p.productType == lowerStr (trimStr t))
        else l1
    | none => l1
  let l3 := match c.hasDiscount with
    | some b => l2.filter (fun p => p.hasDiscount == b)
    | none => l2
  let l4 := match c.hasVariants with
    | some b => l3.filter (fun p => p.hasVariants == b)
    | none => l3
  if c.minPrice.isSome || c.maxPrice.isSome then
    l4.filter (fun p =>
      let price := p.getNumericPrice
      (match c.minPrice with | some m => decide (m ≤ price) | none => true) &&
      (match c.maxPrice with | some m => decide (price ≤ m) | none => true))
  else l4

/-- The comparator `(a, b) => a.hasDiscount && !b.hasDiscount ? -1 : ...`
as a total preorder: discounted products first, then ascending numeric price. -/
def prodLe (a b : Product) : Prop :=
  (a.hasDiscount = true ∧ b.hasDiscount = false) ∨
    (a.hasDiscount = b.hasDiscount ∧ a.getNumericPrice ≤ b.getNumericPrice)

instance : DecidableRel prodLe := fun a b => by
  unfold prodLe; infer_instance

instance : IsTotal Product prodLe := by
  constructor
  intro a b
  by_cases hab : a.hasDiscount = b.hasDiscount
  · rcases le_total a.getNumericPrice b.getNumericPrice with h | h
    · exact Or.inl (Or.inr ⟨hab, h⟩)
    · exact Or.inr (Or.inr ⟨hab.symm, h⟩)
  · cases ha : a.hasDiscount <;> cases hb : b.hasDiscount
    · exact absurd (ha.trans hb.symm) hab
    · exact Or.inr (Or.inl ⟨hb, ha⟩)
    · exact Or.inl (Or.inl ⟨ha, hb⟩)
    · exact absurd (ha.trans hb.symm) hab

instance : IsTrans Product prodLe := by
  constructor
  rintro a b c (⟨ha, hb⟩ | ⟨hab, hpab⟩) (⟨hb', hc⟩ | ⟨hbc, hpbc⟩)
  · exact absurd (hb.symm.trans hb') (by simp)
  · exact Or.inl ⟨ha, hbc ▸ hb⟩
  · exact Or.inl ⟨hab.trans hb', hc⟩
  · exact Or.inr ⟨hab.trans hbc, hpab.trans hpbc⟩

/-- The filtered list after the in-place sort (modelled as insertion sort by
the comparator's preorder; any correct sort yields this ordering). -/
def sortedFiltered (st : RepoState) (c : ProductSearchCriteria) : List Product :=
  List.insertionSort prodLe (filteredProducts st c)

/-- Effective offset: `criteria.offset || 0` (falsy defaulting; for naturals
this coincides with defaulting only `undefined`). -/
def effOffset (c : ProductSearchCriteria) : ℕ := c.offset.getD 0

/-- Effective limit: `criteria.limit || 20`. An explicit `0` is falsy and
therefore also defaults to `20`. -/
def effLimit (c : ProductSearchCriteria) : ℕ :=
  match c.limit with
  | none => 20
  | some n => if n = 0 then 20 else n

/-- `CSVProductRepository.searchProducts`. -/
def searchProducts (st : RepoState) (c : ProductSearchCriteria) :
    Except String ProductSearchResult :=
  if st.inited = false then .error "Product repository not initialized"
  else
    let total := (filteredProducts st c).length  -- sort preserves length
    let offset := effOffset c
    let limit := effLimit c
    .ok { products := ((sortedFiltered st c).drop offset).take limit
          total := total
          hasMore := decide (offset + limit < total) }

/-! ### JavaScript numbers where truthiness / finiteness matters -/

/-- A JavaScript number (or an absent argument): NaN, ±Infinity, or a finite
value modelled exactly as a rational. -/
inductive JNum where
  | undef
  | nan
  | inf
  | ninf
  | num (q : ℚ)
  deriving Repr, DecidableEq

/-- JS falsiness of a number: `undefined`, `NaN` and `0` are falsy. -/
def JNum.falsy : JNum → Bool
  | .undef => true
  | .nan => true
  | .num q => q == 0
  | _ => false

/-- JS `x <= 0` (comparisons with NaN/undefined are false). -/
def JNum.leZero : JNum → Bool
  | .ninf => true
  | .num q => decide (q ≤ 0)
  | _ => false

/-- `Number.isFinite` (no coercion). -/
def JNum.isFinite : JNum → Bool
  | .num _ => true
  | _ => false

/-- JS `x > c` for a rational constant `c`. -/
def JNum.gtQ : JNum → ℚ → Bool
  | .inf, _ => true
  | .num q, c => decide (c < q)
  | _, _ => false

/-- The finite value of a JS number (junk `0` otherwise; used only after
validation has established finiteness). -/
def JNum.toQ : JNum → ℚ
  | .num q => q
  | _ => 0

/-! ### Exchange rate client (`OpenExchangeRatesService`) -/

/-- `ConversionRequest`: fields can be absent in the raw tool arguments. -/
structure ConversionRequest where
  amount : JNum
  fromCurrency : Option String
  toCurrency : Option String
  deriving Repr, DecidableEq

/-- `CurrencyConversion` entity (the fields claims talk about). -/
structure CurrencyConversion where
  amount : ℚ
  fromCurrency : String
  toCurrency : String
  convertedAmount : ℚ
  exchangeRate : ℚ
  timestamp : String
  source : String
  deriving Repr, DecidableEq

/-- The `CurrencyConversion` constructor. The `|| 0` / `|| ''` falsy defaults
are identities for the values passed here (`0 || 0 = 0`, `''.toUpperCase() = ''`),
so the constructor reduces to field assembly with upper-cased codes. -/
def CurrencyConversion.make (amount : ℚ) (fromC toC : String) (conv rate : ℚ)
    (ts src : String) : CurrencyConversion :=
  { amount := amount
    fromCurrency := upperStr fromC
    toCurrency := upperStr toC
    convertedAmount := conv
    exchangeRate := rate
    timestamp := ts
    source := src }

/-- `!code?.trim() || code.length !== 3` — the failing condition on one
currency-code argument. -/
def codeBad : Option String → Bool
  | none => true
  | some s => trimStr s == "" || !(s.length == 3)

/-- `OpenExchangeRatesService.validateConversionRequest`; `some msg` is the
thrown error, `none` means the request passed validation. -/
def validateConversionRequest (r : ConversionRequest) : Option String :=
  if r.amount.falsy || r.amount.leZero || !r.amount.isFinite then
    some "Amount must be a positive finite number"
  else if r.amount.gtQ 1000000000 then
    some "Amount too large (max: 1,000,000,000)"
  else if codeBad r.fromCurrency then
    some "From currency must be a valid 3-letter currency code"
  else if codeBad r.toCurrency then
    some "To currency must be a valid 3-letter currency code"
  else none

/-- `roundToDecimalPlaces`: scale by a decimal power (the `'e'` string trick
keeps this exact), `Math.round` (= floor of x + 1/2), scale back. -/
def roundToDecimalPlaces (value : ℚ) (decimals : ℕ) : ℚ :=
  ((⌊value * (10 : ℚ) ^ decimals + 1 / 2⌋ : ℤ) : ℚ) / (10 : ℚ) ^ decimals

/-- The provider's `latest.json` payload: base currency and rates map. -/
structure LatestResponse where
  base : String
  rates : List (String × ℚ)
  deriving Repr, DecidableEq

/-- A rates-map read through JS truthiness: a missing key and a literal `0`
rate are both "not found" (`!rate`). -/
def truthyRate (rates : List (String × ℚ)) (code : String) : Option ℚ :=
  match List.lookup code rates with
  | some r => if r = 0 then none else some r
  | none => none

/-- Mutable service state: the rates cache, `Map.set` modelled as a
shadowing cons (lookup-equivalent to in-place replacement). -/
structure RateState where
  ratesCache : List (String × ℚ × ℤ)
  deriving Repr, DecidableEq

def RateState.cacheSet (st : RateState) (key : String) (rate : ℚ) (ts : ℤ) :
    RateState :=
  { ratesCache := (key, rate, ts) :: st.ratesCache }

/-- The error wrapper of `getExchangeRate`'s catch block. -/
def wrapRateErr (f t inner : String) : String :=
  "Failed to get exchange rate from " ++ f ++ " to " ++ t ++ ": " ++ inner

/-- The base-relative rate derivation of `getExchangeRate`: three cases on
whether `from` or `to` equals the provider's base currency. -/
def deriveRate (resp : LatestResponse) (fromU toU : String) : Except String ℚ :=
  if fromU = resp.base then
    match truthyRate resp.rates toU with
    | some r => .ok r
    | none => .error ("Exchange rate not found for " ++ toU)
  else if toU = resp.base then
    match truthyRate resp.rates fromU with
    | some fr => .ok (1 / fr)
    | none => .error ("Exchange rate not found for " ++ fromU)
  else
    match truthyRate resp.rates fromU, truthyRate resp.rates toU with
    | some fr, some tr => .ok (tr / fr)
    | none, _ => .error ("Exchange rates not found for " ++ fromU)
    | some _, none => .error ("Exchange rates not found for " ++ toU)

/-- The body of `getExchangeRate`'s try block (cache miss path): one provider
call, rate derivation relative to the base currency, validity check, cache
store. Results carry the next state and the number of network calls made. -/
def fetchRate (provider : String → String → Except String LatestResponse)
    (st : RateState) (now : ℤ) (fromU toU cacheKey : String) :
    Except String ℚ × RateState × ℕ :=
  match provider fromU toU with
  | .error e => (.error (wrapRateErr fromU toU e), st, 1)
  | .ok resp =>
    if resp.rates.isEmpty then
      (.error (wrapRateErr fromU toU "No exchange rates returned from API"), st, 1)
    else
      match deriveRate resp fromU toU with
      | .error e => (.error (wrapRateErr fromU toU e), st, 1)
      | .ok rate =>
        if rate ≤ 0 then  -- `!rate || rate <= 0 || !isFinite(rate)` over ℚ
          (.error (wrapRateErr fromU toU
            ("Invalid exchange rate calculated: " ++ toString rate)), st, 1)
        else
          (.ok rate, st.cacheSet cacheKey rate now, 1)

/-- `OpenExchangeRatesService.getExchangeRate`: upper-case the codes, serve a
fresh cache entry without any network call, otherwise fetch. -/
def getExchangeRate (ttl : ℤ)
    (provider : String → String → Except String LatestResponse)
    (st : RateState) (now : ℤ) (fromCurrency toCurrency : String) :
    Except String ℚ × RateState × ℕ :=
  let fromU := upperStr fromCurrency
  let toU := upperStr toCurrency
  let cacheKey := fromU ++ "-" ++ toU
  match List.lookup cacheKey st.ratesCache with
  | some entry =>
    if now - entry.2 < ttl then (.ok entry.1, st, 0)
    else fetchRate provider st now fromU toU cacheKey
  | none => fetchRate provider st now fromU toU cacheKey

/-- `OpenExchangeRatesService.convertCurrency`: validate, short-circuit
same-currency conversions, otherwise fetch a rate, multiply and round. -/
def convertCurrency (ttl : ℤ)
    (provider : String → String → Except String LatestResponse)
    (st : RateState) (now : ℤ) (nowIso : String) (req : ConversionRequest) :
    Except String CurrencyConversion × RateState × ℕ :=
  match validateConversionRequest req with
  | some e => (.error ("Currency conversion failed: " ++ e), st, 0)
  | none =>
    let amount := req.amount.toQ
    let fromC := req.fromCurrency.getD ""
    let toC := req.toCurrency.getD ""
    if upperStr fromC = upperStr toC then
      (.ok (CurrencyConversion.make amount fromC toC amount 1 nowIso "direct"),
        st, 0)
    else
      match getExchangeRate ttl provider st now fromC toC with
      | (.ok rate, st', n) =>
        (.ok (CurrencyConversion.make amount fromC toC
          (roundToDecimalPlaces (amount * rate) 4) rate nowIso
          "openexchangerates.org"), st', n)
      | (.error e, st', n) =>
        (.error ("Currency conversion failed: " ++ e), st', n)

/-! ### Tool orchestrator (`LLMService`) -/

/-- Parsed JSON arguments of a tool call. `limit` and `offset` may be present
in the serialized arguments but are never read by the orchestrator. -/
structure ArgsObj where
  query : Option String := none
  productType : Option String := none
  minPrice : Option ℚ := none
  maxPrice : Option ℚ := none
  hasDiscount : Option Bool := none
  limit : Option ℕ := none
  offset : Option ℕ := none
  amount : JNum := .undef
  fromCurrency : Option String := none
  toCurrency : Option String := none
  deriving Repr, DecidableEq

/-- Outcome of `JSON.parse` on the serialized arguments: a parse failure
carries the exception message. -/
inductive JsonArgs where
  | invalid (msg : String)
  | obj (o : ArgsObj)
  deriving Repr, DecidableEq

structure FunctionCall where
  name : String
  arguments : JsonArgs
  deriving Repr, DecidableEq

structure ToolCall where
  id : String
  function : FunctionCall
  deriving Repr, DecidableEq

/-- The per-product projection serialized into the searchProducts payload. -/
structure ProductView where
  displayTitle : String
  productType : String
  price : String
  hasDiscount : Bool
  hasVariants : Bool
  url : String
  summary : String
  deriving Repr, DecidableEq

def productView (p : Product) : ProductView :=
  { displayTitle := p.displayTitle
    productType := p.productType
    price := p.price
    hasDiscount := p.hasDiscount
    hasVariants := p.hasVariants
    url := p.url
    summary := p.getSummary }

structure SearchPayload where
  products : List ProductView
  total : ℕ
  searchCriteria : ProductSearchCriteria
  deriving Repr, DecidableEq

/-- `Number.toFixed` on the exact rational values arising here. -/
def qToFixed (q : ℚ) (d : ℕ) : String :=
  let scaled : ℤ := ⌊q * (10 : ℚ) ^ d + 1 / 2⌋
  let a := scaled.natAbs
  let ip := a / 10 ^ d
  let fp := a % 10 ^ d
  let fpStr := toString fp
  let pad := String.mk (List.replicate (d - fpStr.length) '0')
  (if scaled < 0 then "-" else "") ++ toString ip ++
    (if d = 0 then "" else "." ++ pad ++ fpStr)

/-- `CurrencyConversion.getFormattedConversion`. -/
def CurrencyConversion.getFormattedConversion (c : CurrencyConversion) : String :=
  toString c.amount ++ " " ++ c.fromCurrency ++ " = " ++
    qToFixed c.convertedAmount 2 ++ " " ++ c.toCurrency

/-- `CurrencyConversion.getExchangeRateDescription`. -/
def CurrencyConversion.getExchangeRateDescription (c : CurrencyConversion) : String :=
  "1 " ++ c.fromCurrency ++ " = " ++ qToFixed c.exchangeRate 4 ++ " " ++
    c.toCurrency

structure ConvertPayload where
  amount : ℚ
  fromCurrency : String
  toCurrency : String
  convertedAmount : ℚ
  exchangeRate : ℚ
  formattedConversion : String
  exchangeRateDescription : String
  deriving Repr, DecidableEq

/-- The serialized `result.data` of a tool execution. -/
inductive ToolData where
  | search (p : SearchPayload)
  | convert (p : ConvertPayload)
  deriving Repr, DecidableEq

structure ToolExecutionResult where
  toolCallId : String
  toolName : String
  success : Bool
  data : Option ToolData := none
  error : Option String := none
  deriving Repr, DecidableEq

/-- Message content: plain text, or the `JSON.stringify` of a tool payload
(serialization modelled as an opaque injection). -/
inductive ContentVal where
  | str (s : String)
  | json (d : ToolData)
  deriving Repr, DecidableEq

structure ChatMessage where
  role : String
  content : Option ContentVal := none
  tool_calls : Option (List ToolCall) := none
  tool_call_id : Option String := none
  name : Option String := none
  deriving Repr, DecidableEq

/-- The oracle (OpenAI) reply message per call: free text and/or requested
tool calls. -/
structure OracleMsg where
  content : Option String := none
  tool_calls : Option (List ToolCall) := none
  deriving Repr, DecidableEq

structure LLMChatRequest where
  userQuery : String
  conversationId : Option String := none
  messages : Option (List ChatMessage) := none

structure LLMChatResponse where
  response : String
  conversationId : Option String := none
  toolUsed : Option String := none
  toolCalls : Option (List ToolCall) := none
  toolExecutionResults : Option (List ToolExecutionResult) := none
  finishReason : Option String := none
  deriving Repr, DecidableEq

/-- External collaborators of `LLMService` (dependency-injected seams): the
reasoning oracle, the currency service, the product repository, and the
generated conversation-id value. -/
structure LLMEnv where
  oracle : List ChatMessage → Except String OracleMsg
  currency : ConversionRequest → Except String CurrencyConversion
  repo : RepoState
  genId : String

/-- The criteria built by `executeSearchProducts` from the oracle's
arguments: limit forced to 2 and offset to 0 regardless of the arguments. -/
def forcedCriteria (args : ArgsObj) : ProductSearchCriteria :=
  { query := args.query
    productType := args.productType
    minPrice := args.minPrice
    maxPrice := args.maxPrice
    hasDiscount := args.hasDiscount
    hasVariants := none
    limit := some 2  -- Technical requirement: return exactly 2 items
    offset := some 0 }

/-- `LLMService.executeSearchProducts`: limit forced to 2 and offset to 0
regardless of the oracle-supplied arguments. -/
def executeSearchProducts (repo : RepoState) (toolCallId toolName : String)
    (args : ArgsObj) : ToolExecutionResult :=
  let criteria : ProductSearchCriteria := forcedCriteria args
  match searchProducts repo criteria with
  | .ok result =>
    { toolCallId := toolCallId
      toolName := toolName
      success := true
      data := some (.search
        { products := result.products.map productView
          total := result.total
          searchCriteria := criteria }) }
  | .error e =>
    { toolCallId := toolCallId, toolName := toolName, success := false
      error := some e }

/-- `LLMService.executeConvertCurrencies`: pass amount/from/to straight
through to the currency service. -/
def executeConvertCurrencies
    (currency : ConversionRequest → Except String CurrencyConversion)
    (toolCallId toolName : String) (args : ArgsObj) : ToolExecutionResult :=
  let req : ConversionRequest :=
    { amount := args.amount
      fromCurrency := args.fromCurrency
      toCurrency := args.toCurrency }
  match currency req with
  | .ok c =>
    { toolCallId := toolCallId
      toolName := toolName
      success := true
      data := some (.convert
        { amount := c.amount
          fromCurrency := c.fromCurrency
          toCurrency := c.toCurrency
          convertedAmount := c.convertedAmount
          exchangeRate := c.exchangeRate
          formattedConversion := c.getFormattedConversion
          exchangeRateDescription := c.getExchangeRateDescription }) }
  | .error e =>
    { toolCallId := toolCallId, toolName := toolName, success := false
      error := some e }

/-- `LLMService.executeTool`: decode arguments, dispatch on the tool name;
failures (parse errors, unknown names) become failed results, never thrown. -/
def executeTool (env : LLMEnv) (tc : ToolCall) : ToolExecutionResult :=
  match tc.function.arguments with
  | .invalid msg =>
    { toolCallId := tc.id, toolName := tc.function.name, success := false
      error := some msg }
  | .obj args =>
    match tc.function.name with
    | "searchProducts" => executeSearchProducts env.repo tc.id tc.function.name args
    | "convertCurrencies" =>
      executeConvertCurrencies env.currency tc.id tc.function.name args
    | _ =>
      { toolCallId := tc.id, toolName := tc.function.name, success := false
        error := some ("Unknown tool: " ++ tc.function.name) }

/-- The fixed system instructions of `prepareMessages`. -/
def systemPrompt : String :=
  "You are a helpful e-commerce shopping assistant with access to product search and currency conversion tools.\n\nCORE CAPABILITIES:\n1. searchProducts: Search product catalog (returns exactly 2 most relevant products)\n2. convertCurrencies: Convert amounts between currencies using real-time rates\n\nCRITICAL RULES - FOLLOW EXACTLY:\n1. ALWAYS use tools proactively - never ask for clarification first\n2. For gift requests, search immediately using the most relevant category or broad search terms\n3. For product searches - use \"query\" parameter with the product name\n4. For currency questions - provide helpful conversions with real rates\n\nGIFT SEARCH STRATEGY - VERY IMPORTANT:\nFor gift requests like \"present for dad\", \"gift for mom\", use these specific approaches:\n\nPRESENTS FOR DAD:\n- Use productType: \"Technology\" (phones, laptops, gaming, headphones)\n- OR query: \"knife\" (kitchen tools, chef knives)\n- OR query: \"gaming\" (PlayStation, Nintendo, gaming laptops)\n- OR query: \"watch\" (Apple Watch, smartwatches)\n- Available categories: Technology, Home (tools/cookware)\n\nPRESENTS FOR MOM:\n- Use productType: \"Clothing\" (fashion, accessories, bags)\n- OR query: \"beauty\" (makeup, skincare)\n- OR query: \"home\" (home decor, kitchen items)\n\nGENERAL SEARCH RULES:\n- query: \"phone\" (for \"looking for phone\")\n- query: \"watch\" (for \"watch prices\") \n- productType: \"Technology\" (for tech gifts, gaming, electronics)\n- productType: \"Home\" (for tools, cookware, furniture)\n- productType: \"Clothing\" (for fashion, accessories)\n\nRESPONSE FORMATTING RULES:\n- Always provide clear, helpful responses\n- Include product names, prices, and key details\n- Mention if products are on sale\n- Format prices clearly with currency\n- Include product links when available\n- Be enthusiastic and helpful about gift suggestions\n\nEXAMPLES OF GOOD RESPONSES:\n\"I found 2 great gift options for your dad:\n\n1. **iPhone 12** - Technology\n   - Price: $900.00 USD (On Sale!)\n   - Perfect for staying connected and tech-savvy dads\n   \n2. **Apple Watch SE** - Technology  \n   - Price: $180.00 USD\n   - Great for fitness tracking and notifications\n\nBoth are excellent choices that most dads would love!\"\n\nRemember: Always be positive, helpful, and provide complete information from the search results. For gifts, focus on popular, practical items that make great presents."

/-- `LLMService.prepareMessages`: system instructions, optional prior
history, then the current user query. -/
def prepareMessages (req : LLMChatRequest) : List ChatMessage :=
  let systemMessage : ChatMessage :=
    { role := "system", content := some (.str systemPrompt) }
  let userMessage : ChatMessage :=
    { role := "user", content := some (.str req.userQuery) }
  [systemMessage] ++
    (match req.messages with
     | some ms => if ms.length > 0 then ms else []
     | none => []) ++
    [userMessage]

/-- The tool-result message appended per executed call. -/
def toolMessage (r : ToolExecutionResult) : ChatMessage :=
  { role := "tool"
    content :=
      if r.success then r.data.map ContentVal.json
      else some (.str ("Error: " ++ r.error.getD "undefined"))
    tool_call_id := some r.toolCallId
    name := some r.toolName }

def apologyError : String :=
  "I apologize, but I encountered an error while processing your request. Please try again."

def apologyNoResponse : String :=
  "I apologize, but I encountered an issue generating a response. Please try again."

def fallbackSearchText : String :=
  "I found some products for you, but encountered an issue formatting the response. Please try your request again."

def fallbackConvertText : String :=
  "I was able to convert the currency, but encountered an issue formatting the response. Please try your request again."

def noToolsFallback : String :=
  "I apologize, but I couldn't generate a proper response."

/-- `request.conversationId || this.generateConversationId()` (computed
before the try block; an empty string is falsy and replaced). -/
def chatConvId (env : LLMEnv) (req : LLMChatRequest) : String :=
  match req.conversationId with
  | some s => if s = "" then env.genId else s
  | none => env.genId

/-- The body of `chat`'s try block: oracle call, optional tool round-trip,
second oracle call, empty-answer fallbacks. Oracle failures propagate as
`Except.error` to the catch site. -/
def chatPipeline (env : LLMEnv) (req : LLMChatRequest)
    (conversationId : String) : Except String LLMChatResponse :=
  let messages := prepareMessages req
  match env.oracle messages with
  | .error e => .error e
  | .ok initial =>
    match initial.tool_calls with
    | some tcs =>
      if tcs.length > 0 then
        let toolResults := tcs.map (executeTool env)
        let messages2 := messages ++
          [{ role := "assistant", content := initial.content.map ContentVal.str
             tool_calls := some tcs }] ++
          toolResults.map toolMessage
        match env.oracle messages2 with
        | .error e => .error e
        | .ok finalChoice =>
          let finalResponse := finalChoice.content
          let emptyFinal : Bool :=
            match finalResponse with
            | none => true
            | some s => decide ((trimStr s).length = 0)
          let special : Option LLMChatResponse :=
            if emptyFinal then
              match (toolResults.filter (·.success)).head? with
              | some first =>
                if first.toolName = "searchProducts" then
                  some { response := fallbackSearchText
                         conversationId := some conversationId
                         toolUsed := some first.toolName
                         finishReason := some "tool_calls" }
                else if first.toolName = "convertCurrencies" then
                  some { response := fallbackConvertText
                         conversationId := some conversationId
                         toolUsed := some first.toolName
                         finishReason := some "tool_calls" }
                else none
              | none => none
            else none
          match special with
          | some r => .ok r
          | none =>
            .ok { response :=
                    match finalResponse with
                    | some s => if s = "" then apologyNoResponse else s
                    | none => apologyNoResponse
                  conversationId := some conversationId
                  toolUsed := toolResults.head?.map (·.toolName)
                  toolCalls := some tcs
                  toolExecutionResults := some toolResults
                  finishReason := some "tool_calls" }
      else
        .ok { response :=
                match initial.content with
                | some s => if s = "" then noToolsFallback else s
                | none => noToolsFallback
              conversationId := some conversationId
              finishReason := some "stop" }
    | none =>
      .ok { response :=
              match initial.content with
              | some s => if s = "" then noToolsFallback else s
              | none => noToolsFallback
            conversationId := some conversationId
            finishReason := some "stop" }

/-- `LLMService.chat`: run the pipeline; any raised error is caught and
converted to the fixed apologetic answer with finish reason "stop". -/
def chat (env : LLMEnv) (req : LLMChatRequest) : LLMChatResponse :=
  let conversationId := chatConvId env req
  match chatPipeline env req conversationId with
  | .ok r => r
  | .error _ =>
    { response := apologyError
      conversationId := some conversationId
      finishReason := some "stop" }

/-! ### Spec-side predicate (for comparison against the code) -/

/-- Modelled from the spec's words: a "3-letter currency code" is exactly
three alphabetic characters. Used only to compare the spec's validation
claim against the code's actual check. -/
def specIsThreeLetterCode (s : String) : Bool :=
  s.length == 3 && s.toList.all Char.isAlpha

/-! ### Concrete sample data for witnesses -/

def pIphone : Product :=
  { displayTitle := "iPhone 12", embeddingText := "A smartphone by Apple"
    url := "https://example.com/iphone-12", imageUrl := ""
    productType := "Technology", discount := 1, price := "900.0 USD"
    variants := none, createDate := "2020-01-01" }

def pGalaxy : Product :=
  { displayTitle := "Galaxy S24", embeddingText := "An Android smartphone"
    url := "https://example.com/galaxy-s24", imageUrl := ""
    productType := "Technology", discount := 0, price := "899.0 USD"
    variants := some "Black, Blue", createDate := "2024-01-01" }

def pKnife : Product :=
  { displayTitle := "Chef Knife", embeddingText := "A kitchen knife"
    url := "https://example.com/chef-knife", imageUrl := ""
    productType := "Home", discount := 0, price := "13.0 - 15.0 USD"
    variants := none, createDate := "2021-01-01" }

def sampleRepo : RepoState :=
  { products := [pIphone, pGalaxy, pKnife], inited := true }

def phoneCriteria : ProductSearchCriteria :=
  { query := some "phone", limit := some 1, offset := some 1 }

def zeroLimitCriteria : ProductSearchCriteria :=
  { limit := some 0 }

/-- Oracle-sent searchProducts arguments that also carry limit/offset. -/
def searchArgs : ArgsObj :=
  { query := some "phone", limit := some 7, offset := some 5 }

/-- An environment whose oracle call fails (network error). -/
def failEnv : LLMEnv :=
  { oracle := fun _ => .error "OpenAI API error"
    currency := fun _ => .error "service unavailable"
    repo := sampleRepo
    genId := "chat-1-abc" }

def wReq : LLMChatRequest := { userQuery := "I am looking for a phone" }

/-- A provider that answers with base USD and rates EUR 0.9, GBP 0.8
(the spec's mocked-response scenario). -/
def sampleProvider : String → String → Except String LatestResponse :=
  fun _ _ => .ok { base := "USD", rates := [("EUR", mkRat 9 10), ("GBP", mkRat 4 5)] }

/-- A same-currency conversion request (codes differing only in case). -/
def directReq : ConversionRequest :=
  { amount := .num 350, fromCurrency := some "usd", toCurrency := some "USD" }

/-- A conversion request with a digit inside the "letter" code. -/
def digitCodeReq : ConversionRequest :=
  { amount := .num 5, fromCurrency := some "AB1", toCurrency := some "USD" }

/-- A conversion request with amount 0 (falsy, fails validation). -/
def zeroAmountReq : ConversionRequest :=
  { amount := .num 0, fromCurrency := some "USD", toCurrency := some "USD" }

end Chatbot

namespace Chatbot

/-! ### Helper lemmas -/

/-- Shape of every successful `searchProducts` call. -/
theorem searchProducts_ok_shape (st : RepoState) (c : ProductSearchCriteria)
    (r : ProductSearchResult) (h : searchProducts st c = .ok r) :
    st.inited = true ∧
      r = { products := ((sortedFiltered st c).drop (effOffset c)).take (effLimit c)
            total := (filteredProducts st c).length
            hasMore := decide (effOffset c + effLimit c <
              (filteredProducts st c).length) } := by
  unfold searchProducts at h
  by_cases hi : st.inited = false
  · rw [if_pos hi] at h
    exact absurd h (by simp)
  · rw [if_neg hi] at h
    injection h with h
    exact ⟨by simpa using hi, h.symm⟩

/-- Sort preserves length. -/
theorem sortedFiltered_length (st : RepoState) (c : ProductSearchCriteria) :
    (sortedFiltered st c).length = (filteredProducts st c).length := by
  exact (List.perm_insertionSort prodLe (filteredProducts st c)).length_eq

/-! ### Claim theorems -/

/-- C7: for every `searchProducts` call on an initialized store, the page is
the `[offset, offset+limit)` slice of the filtered-and-sorted list (with the
code's defaulting of absent offset/limit), the total is the filtered count
before pagination, and `hasMore` holds iff `offset + limit < total`. -/
theorem searchProducts_pagination (st : RepoState) (c : ProductSearchCriteria)
    (r : ProductSearchResult) (h : searchProducts st c = .ok r) :
    r.products = ((sortedFiltered st c).drop (effOffset c)).take (effLimit c)
    ∧ r.total = (filteredProducts st c).length
    ∧ (r.hasMore = true ↔ effOffset c + effLimit c < r.total) := by
  obtain ⟨hi, rfl⟩ := searchProducts_ok_shape st c r h
  exact ⟨rfl, rfl, by simp⟩

theorem searchProducts_pagination_witness :
    searchProducts sampleRepo phoneCriteria =
      .ok { products := [pGalaxy], total := 2, hasMore := false }
    ∧ (({ products := [pGalaxy], total := 2, hasMore := false } :
          ProductSearchResult).products =
        ((sortedFiltered sampleRepo phoneCriteria).drop (effOffset phoneCriteria)).take
          (effLimit phoneCriteria)
      ∧ ({ products := [pGalaxy], total := 2, hasMore := false } :
          ProductSearchResult).total =
        (filteredProducts sampleRepo phoneCriteria).length
      ∧ (({ products := [pGalaxy], total := 2, hasMore := false } :
          ProductSearchResult).hasMore = true ↔
          effOffset phoneCriteria + effLimit phoneCriteria <
            ({ products := [pGalaxy], total := 2, hasMore := false } :
              ProductSearchResult).total)) :=
  ⟨by rfl, searchProducts_pagination sampleRepo phoneCriteria _ (by rfl)⟩

/-- C8: in every `searchProducts` result no non-discounted product precedes a
discounted one, prices are non-decreasing within equal discount status, and
the ordering was applied to the filtered list before the slice was taken. -/
theorem searchProducts_ordering (st : RepoState) (c : ProductSearchCriteria)
    (r : ProductSearchResult) (h : searchProducts st c = .ok r) :
    r.products =
      ((List.insertionSort prodLe (filteredProducts st c)).drop (effOffset c)).take
        (effLimit c)
    ∧ r.products.Pairwise (fun a b =>
        (b.hasDiscount = true → a.hasDiscount = true) ∧
        (a.hasDiscount = b.hasDiscount →
          a.getNumericPrice ≤ b.getNumericPrice)) := by
  obtain ⟨hi, rfl⟩ := searchProducts_ok_shape st c r h
  refine ⟨rfl, ?_⟩
  have hs : List.Pairwise prodLe
      (List.insertionSort prodLe (filteredProducts st c)) :=
    List.sorted_insertionSort prodLe (filteredProducts st c)
  have hsub :
      (((List.insertionSort prodLe (filteredProducts st c)).drop
          (effOffset c)).take (effLimit c)).Sublist
        (List.insertionSort prodLe (filteredProducts st c)) :=
    (List.take_sublist _ _).trans (List.drop_sublist _ _)
  have hp := List.Pairwise.sublist hsub hs
  refine hp.imp ?_
  intro a b hab
  rcases hab with ⟨ha, hb⟩ | ⟨hab, hpr⟩
  · refine ⟨fun _ => ha, fun h2 => ?_⟩
    rw [ha, hb] at h2
    cases h2
  · exact ⟨fun h1 => hab.trans h1, fun _ => hpr⟩

theorem searchProducts_ordering_witness :
    searchProducts sampleRepo {} =
      .ok { products := [pIphone, pKnife, pGalaxy], total := 3, hasMore := false }
    ∧ (({ products := [pIphone, pKnife, pGalaxy], total := 3, hasMore := false } :
          ProductSearchResult).products =
        ((List.insertionSort prodLe (filteredProducts sampleRepo {})).drop
          (effOffset {})).take (effLimit {})
      ∧ ({ products := [pIphone, pKnife, pGalaxy], total := 3, hasMore := false } :
          ProductSearchResult).products.Pairwise (fun a b =>
            (b.hasDiscount = true → a.hasDiscount = true) ∧
            (a.hasDiscount = b.hasDiscount →
              a.getNumericPrice ≤ b.getNumericPrice))) :=
  ⟨by rfl, searchProducts_ordering sampleRepo {} _ (by rfl)⟩

/-- C10: an explicit `limit: 0` is falsy, so `criteria.limit || 20` replaces
it by 20: the call behaves exactly like one with limit 20, a nonempty page is
returned whenever the effective offset is below the total, and `hasMore` is
computed with 20 rather than the supplied 0. -/
theorem searchProducts_zero_limit (st : RepoState) (c : ProductSearchCriteria)
    (h0 : c.limit = some 0) :
    searchProducts st c = searchProducts st { c with limit := some 20 }
    ∧ (∀ r, searchProducts st c = .ok r →
        effOffset c < r.total → r.products ≠ []) := by
  constructor
  · obtain ⟨q, pt, minP, maxP, hd, hv, lim, off⟩ := c
    simp only [ProductSearchCriteria.limit] at h0
    subst h0
    rfl
  · intro r h hlt hnil
    obtain ⟨hi, rfl⟩ := searchProducts_ok_shape st c r h
    have hlim : effLimit c = 20 := by simp [effLimit, h0]
    have hlen := congrArg List.length hnil
    simp only [List.length_take, List.length_drop, List.length_nil] at hlen
    rw [sortedFiltered_length, hlim] at hlen
    simp only [ProductSearchResult.total] at hlt
    omega

theorem searchProducts_zero_limit_witness :
    zeroLimitCriteria.limit = some 0
    ∧ (searchProducts sampleRepo zeroLimitCriteria =
        searchProducts sampleRepo { zeroLimitCriteria with limit := some 20 }
      ∧ (∀ r, searchProducts sampleRepo zeroLimitCriteria = .ok r →
          effOffset zeroLimitCriteria < r.total → r.products ≠ [])) :=
  ⟨rfl, searchProducts_zero_limit sampleRepo zeroLimitCriteria rfl⟩

/-- C2: `executeSearchProducts` runs the search with limit 2 and offset 0
regardless of limit/offset values in the oracle's arguments, and when at
least 2 products pass the filters the tool payload holds exactly 2 products. -/
theorem executeSearchProducts_forced_page (st : RepoState) (id : String)
    (args : ArgsObj) (lim off : Option ℕ)
    (hinit : st.inited = true)
    (h2 : 2 ≤ (filteredProducts st (forcedCriteria args)).length) :
    executeSearchProducts st id "searchProducts"
        { args with limit := lim, offset := off } =
      executeSearchProducts st id "searchProducts" args
    ∧ ∃ pl : SearchPayload,
        executeSearchProducts st id "searchProducts" args =
          { toolCallId := id, toolName := "searchProducts", success := true
            data := some (.search pl), error := none }
        ∧ pl.products.length = 2 := by
  have hforce : forcedCriteria { args with limit := lim, offset := off } =
      forcedCriteria args := by
    cases args
    rfl
  have hok : searchProducts st (forcedCriteria args) = .ok
      { products := ((sortedFiltered st (forcedCriteria args)).drop
          (effOffset (forcedCriteria args))).take (effLimit (forcedCriteria args))
        total := (filteredProducts st (forcedCriteria args)).length
        hasMore := decide (effOffset (forcedCriteria args) +
          effLimit (forcedCriteria args) <
          (filteredProducts st (forcedCriteria args)).length) } := by
    unfold searchProducts
    rw [hinit]
    rfl
  constructor
  · unfold executeSearchProducts
    rw [hforce]
  · refine ⟨SearchPayload.mk
      ((((sortedFiltered st (forcedCriteria args)).drop
        (effOffset (forcedCriteria args))).take
          (effLimit (forcedCriteria args))).map productView)
      (filteredProducts st (forcedCriteria args)).length
      (forcedCriteria args), ?_, ?_⟩
    · unfold executeSearchProducts
      simp only [hok]
    · simp only [List.length_map, List.length_take, List.length_drop]
      have hl := sortedFiltered_length st (forcedCriteria args)
      have hoff : effOffset (forcedCriteria args) = 0 := rfl
      have hlim : effLimit (forcedCriteria args) = 2 := rfl
      rw [hoff, hlim, hl]
      omega

theorem executeSearchProducts_forced_page_witness :
    sampleRepo.inited = true
    ∧ 2 ≤ (filteredProducts sampleRepo (forcedCriteria searchArgs)).length
    ∧ (executeSearchProducts sampleRepo "call-1" "searchProducts"
          { searchArgs with limit := some 9, offset := some 3 } =
        executeSearchProducts sampleRepo "call-1" "searchProducts" searchArgs
      ∧ ∃ pl : SearchPayload,
          executeSearchProducts sampleRepo "call-1" "searchProducts" searchArgs =
            { toolCallId := "call-1", toolName := "searchProducts"
              success := true, data := some (.search pl), error := none }
          ∧ pl.products.length = 2) :=
  ⟨rfl, by decide,
    executeSearchProducts_forced_page sampleRepo "call-1" searchArgs
      (some 9) (some 3) rfl (by decide)⟩

/-- C1: if anything in the orchestration pipeline raises, `chat` catches it
and returns the fixed apologetic answer with finish reason "stop"; it never
propagates the error (`chat` is total and returns a well-formed response). -/
theorem chat_catches_errors (env : LLMEnv) (req : LLMChatRequest) (e : String)
    (h : chatPipeline env req (chatConvId env req) = .error e) :
    chat env req =
      { response := apologyError
        conversationId := some (chatConvId env req)
        toolUsed := none, toolCalls := none, toolExecutionResults := none
        finishReason := some "stop" } := by
  simp [chat, h]

theorem chat_catches_errors_witness :
    chatPipeline failEnv wReq (chatConvId failEnv wReq) =
      .error "OpenAI API error"
    ∧ chat failEnv wReq =
        { response := apologyError
          conversationId := some (chatConvId failEnv wReq)
          toolUsed := none, toolCalls := none, toolExecutionResults := none
          finishReason := some "stop" } :=
  ⟨rfl, chat_catches_errors failEnv wReq "OpenAI API error" rfl⟩


/-! ### Exchange-rate lemmas -/

theorem truthyRate_some {R : List (String × ℚ)} {c : String} {r : ℚ}
    (h : truthyRate R c = some r) : List.lookup c R = some r := by
  unfold truthyRate at h
  rcases hl : List.lookup c R with _ | x
  · simp only [hl] at h
    exact Option.noConfusion h
  · simp only [hl] at h
    by_cases hx : x = 0
    · rw [if_pos hx] at h
      exact Option.noConfusion h
    · rw [if_neg hx] at h
      cases h
      rfl

theorem truthyRate_none {R : List (String × ℚ)} {c : String}
    (h : List.lookup c R = none) : truthyRate R c = none := by
  unfold truthyRate
  rw [h]

theorem deriveRate_ok_from_base {resp : LatestResponse} {F T : String} {r : ℚ}
    (hb : F = resp.base) (h : deriveRate resp F T = .ok r) :
    List.lookup T resp.rates = some r := by
  unfold deriveRate at h
  rw [if_pos hb] at h
  rcases ht : truthyRate resp.rates T with _ | x
  · rw [ht] at h
    cases h
  · rw [ht] at h
    cases h
    exact truthyRate_some ht

theorem deriveRate_ok_to_base {resp : LatestResponse} {F T : String} {r : ℚ}
    (hb : F ≠ resp.base) (hb2 : T = resp.base) (h : deriveRate resp F T = .ok r) :
    ∃ q, List.lookup F resp.rates = some q ∧ r = 1 / q := by
  unfold deriveRate at h
  rw [if_neg hb, if_pos hb2] at h
  rcases ht : truthyRate resp.rates F with _ | x
  · rw [ht] at h
    cases h
  · rw [ht] at h
    cases h
    exact ⟨x, truthyRate_some ht, rfl⟩

theorem deriveRate_ok_cross {resp : LatestResponse} {F T : String} {r : ℚ}
    (hb : F ≠ resp.base) (hb2 : T ≠ resp.base) (h : deriveRate resp F T = .ok r) :
    ∃ qf qt, List.lookup F resp.rates = some qf ∧
      List.lookup T resp.rates = some qt ∧ r = qt / qf := by
  unfold deriveRate at h
  rw [if_neg hb, if_neg hb2] at h
  rcases hf : truthyRate resp.rates F with _ | xf
  · rw [hf] at h
    cases h
  · rcases ht : truthyRate resp.rates T with _ | xt
    · rw [hf, ht] at h
      cases h
    · rw [hf, ht] at h
      cases h
      exact ⟨xf, xt, truthyRate_some hf, truthyRate_some ht, rfl⟩

theorem deriveRate_err_from_base {resp : LatestResponse} {F T : String}
    (hb : F = resp.base) (hm : List.lookup T resp.rates = none) :
    ∃ e, deriveRate resp F T = .error e := by
  unfold deriveRate
  rw [if_pos hb, truthyRate_none hm]
  exact ⟨_, rfl⟩

theorem deriveRate_err_to_base {resp : LatestResponse} {F T : String}
    (hb : F ≠ resp.base) (hb2 : T = resp.base)
    (hm : List.lookup F resp.rates = none) :
    ∃ e, deriveRate resp F T = .error e := by
  unfold deriveRate
  rw [if_neg hb, if_pos hb2, truthyRate_none hm]
  exact ⟨_, rfl⟩

theorem deriveRate_err_cross {resp : LatestResponse} {F T : String}
    (hb : F ≠ resp.base) (hb2 : T ≠ resp.base)
    (hm : List.lookup F resp.rates = none ∨ List.lookup T resp.rates = none) :
    ∃ e, deriveRate resp F T = .error e := by
  unfold deriveRate
  rw [if_neg hb, if_neg hb2]
  rcases hm with hm | hm
  · rw [truthyRate_none hm]
    exact ⟨_, rfl⟩
  · rw [truthyRate_none hm]
    rcases hf : truthyRate resp.rates F with _ | xf
    · exact ⟨_, rfl⟩
    · exact ⟨_, rfl⟩

theorem fetchRate_ok_shape {p : String → String → Except String LatestResponse}
    {st : RateState} {now : ℤ} {F T K : String} {r : ℚ} {st' : RateState} {n : ℕ}
    (h : fetchRate p st now F T K = (.ok r, st', n)) :
    st' = st.cacheSet K r now ∧ n = 1 ∧
      ∃ resp, p F T = .ok resp ∧ deriveRate resp F T = .ok r := by
  unfold fetchRate at h
  rcases hp : p F T with e | resp
  · simp only [hp] at h
    simp [Prod.ext_iff] at h
  · simp only [hp] at h
    by_cases he : resp.rates.isEmpty = true
    · rw [if_pos he] at h
      simp [Prod.ext_iff] at h
    · rw [if_neg he] at h
      rcases hd : deriveRate resp F T with e | rate
      · simp only [hd] at h
        simp [Prod.ext_iff] at h
      · simp only [hd] at h
        by_cases hr : rate ≤ 0
        · rw [if_pos hr] at h
          simp [Prod.ext_iff] at h
        · rw [if_neg hr] at h
          simp only [Prod.ext_iff, Except.ok.injEq] at h
          obtain ⟨h1, h2, h3⟩ := h
          subst h1
          exact ⟨h2.symm, h3.symm, resp, rfl, hd⟩

theorem fetchRate_fst_ok {p : String → String → Except String LatestResponse}
    {st : RateState} {now : ℤ} {F T K : String} {r : ℚ} {resp : LatestResponse}
    (hprov : p F T = .ok resp)
    (h : (fetchRate p st now F T K).1 = .ok r) :
    deriveRate resp F T = .ok r := by
  unfold fetchRate at h
  simp only [hprov] at h
  by_cases he : resp.rates.isEmpty = true
  · rw [if_pos he] at h
    exact Except.noConfusion h
  · rw [if_neg he] at h
    rcases hd : deriveRate resp F T with e | rate
    · simp only [hd] at h
      exact Except.noConfusion h
    · simp only [hd] at h
      by_cases hr : rate ≤ 0
      · rw [if_pos hr] at h
        exact Except.noConfusion h
      · rw [if_neg hr] at h
        cases h
        rfl

theorem fetchRate_fst_err {p : String → String → Except String LatestResponse}
    {st : RateState} {now : ℤ} {F T K : String} {resp : LatestResponse} {e : String}
    (hprov : p F T = .ok resp) (hd : deriveRate resp F T = .error e) :
    ∃ msg, (fetchRate p st now F T K).1 = .error msg := by
  unfold fetchRate
  simp only [hprov]
  by_cases he : resp.rates.isEmpty = true
  · rw [if_pos he]
    exact ⟨_, rfl⟩
  · rw [if_neg he]
    simp only [hd]
    exact ⟨_, rfl⟩

theorem getExchangeRate_hit {ttl : ℤ}
    {p : String → String → Except String LatestResponse}
    {st : RateState} {now : ℤ} {f t : String} {q : ℚ} {ts : ℤ}
    (hl : List.lookup (upperStr f ++ "-" ++ upperStr t) st.ratesCache =
      some (q, ts))
    (hfresh : now - ts < ttl) :
    getExchangeRate ttl p st now f t = (.ok q, st, 0) := by
  unfold getExchangeRate
  simp only [hl, hfresh, if_pos]

theorem getExchangeRate_reached_provider {ttl : ℤ}
    {p : String → String → Except String LatestResponse}
    {st : RateState} {now : ℤ} {f t : String}
    (h : (getExchangeRate ttl p st now f t).2.2 = 1) :
    getExchangeRate ttl p st now f t =
      fetchRate p st now (upperStr f) (upperStr t)
        (upperStr f ++ "-" ++ upperStr t) := by
  unfold getExchangeRate at h ⊢
  rcases hl : List.lookup (upperStr f ++ "-" ++ upperStr t) st.ratesCache
    with _ | ⟨q, ts⟩
  · simp only [hl]
  · simp only [hl] at h ⊢
    by_cases hf : now - ts < ttl
    · rw [if_pos hf] at h
      cases h
    · rw [if_neg hf]

/-! ### Exchange-rate claim theorems -/

/-- C3: on a call that reaches the provider and receives base `B` with rates
`R`, a successful result equals `R(to)` when `from = B`, `1 / R(from)` when
`to = B`, and `R(to) / R(from)` otherwise; a needed rate missing from `R`
makes the call fail. -/
theorem getExchangeRate_derivation (ttl : ℤ)
    (p : String → String → Except String LatestResponse)
    (st : RateState) (now : ℤ) (f t : String) (resp : LatestResponse)
    (hnet : (getExchangeRate ttl p st now f t).2.2 = 1)
    (hprov : p (upperStr f) (upperStr t) = .ok resp) :
    (∀ r, (getExchangeRate ttl p st now f t).1 = .ok r →
       (upperStr f = resp.base →
          List.lookup (upperStr t) resp.rates = some r)
     ∧ (upperStr f ≠ resp.base → upperStr t = resp.base →
          ∃ q, List.lookup (upperStr f) resp.rates = some q ∧ r = 1 / q)
     ∧ (upperStr f ≠ resp.base → upperStr t ≠ resp.base →
          ∃ qf qt, List.lookup (upperStr f) resp.rates = some qf ∧
            List.lookup (upperStr t) resp.rates = some qt ∧ r = qt / qf))
    ∧ (upperStr f = resp.base →
        List.lookup (upperStr t) resp.rates = none →
        ∃ msg, (getExchangeRate ttl p st now f t).1 = .error msg)
    ∧ (upperStr f ≠ resp.base → upperStr t = resp.base →
        List.lookup (upperStr f) resp.rates = none →
        ∃ msg, (getExchangeRate ttl p st now f t).1 = .error msg)
    ∧ (upperStr f ≠ resp.base → upperStr t ≠ resp.base →
        List.lookup (upperStr f) resp.rates = none ∨
          List.lookup (upperStr t) resp.rates = none →
        ∃ msg, (getExchangeRate ttl p st now f t).1 = .error msg) := by
  have hfe := getExchangeRate_reached_provider hnet
  refine ⟨?_, ?_, ?_, ?_⟩
  · intro r hok
    rw [hfe] at hok
    have hd := fetchRate_fst_ok hprov hok
    refine ⟨fun hb => deriveRate_ok_from_base hb hd,
      fun hb hb2 => deriveRate_ok_to_base hb hb2 hd,
      fun hb hb2 => deriveRate_ok_cross hb hb2 hd⟩
  · intro hb hm
    obtain ⟨e, he⟩ := deriveRate_err_from_base (T := upperStr t) hb hm
    rw [hfe]
    exact fetchRate_fst_err hprov he
  · intro hb hb2 hm
    obtain ⟨e, he⟩ := deriveRate_err_to_base hb hb2 hm
    rw [hfe]
    exact fetchRate_fst_err hprov he
  · intro hb hb2 hm
    obtain ⟨e, he⟩ := deriveRate_err_cross hb hb2 hm
    rw [hfe]
    exact fetchRate_fst_err hprov he

theorem getExchangeRate_derivation_witness :
    ((getExchangeRate 3600 sampleProvider ⟨[]⟩ 0 "USD" "EUR").2.2 = 1
      ∧ sampleProvider (upperStr "USD") (upperStr "EUR") =
          .ok { base := "USD", rates := [("EUR", mkRat 9 10), ("GBP", mkRat 4 5)] })
    ∧ ((getExchangeRate 3600 sampleProvider ⟨[]⟩ 0 "USD" "EUR").1 =
        .ok (mkRat 9 10)
      ∧ List.lookup (upperStr "EUR")
          [("EUR", mkRat 9 10), ("GBP", mkRat 4 5)] = some (mkRat 9 10)) :=
  ⟨⟨rfl, rfl⟩,
    rfl,
    ((getExchangeRate_derivation 3600 sampleProvider ⟨[]⟩ 0 "USD" "EUR"
        { base := "USD", rates := [("EUR", mkRat 9 10), ("GBP", mkRat 4 5)] }
        rfl rfl).1 (mkRat 9 10) rfl).1 rfl⟩

/-- C9: a fresh cache entry under `from-to` is returned unchanged with no
network call; a successful fetch stores the rate under exactly that key with
the current timestamp; hence a second call for the same pair within one TTL
window of the first fetch makes no further network call and returns the same
rate. -/
theorem getExchangeRate_caching (ttl : ℤ)
    (p : String → String → Except String LatestResponse)
    (st : RateState) (now : ℤ) (f t : String) :
    (∀ q ts, List.lookup (upperStr f ++ "-" ++ upperStr t) st.ratesCache =
        some (q, ts) → now - ts < ttl →
        getExchangeRate ttl p st now f t = (.ok q, st, 0))
    ∧ (∀ r st', getExchangeRate ttl p st now f t = (.ok r, st', 1) →
        st' = st.cacheSet (upperStr f ++ "-" ++ upperStr t) r now ∧
        List.lookup (upperStr f ++ "-" ++ upperStr t) st'.ratesCache =
          some (r, now))
    ∧ (∀ r st' t1, getExchangeRate ttl p st now f t = (.ok r, st', 1) →
        t1 - now < ttl →
        getExchangeRate ttl p st' t1 f t = (.ok r, st', 0)) := by
  have hstore : ∀ r st', getExchangeRate ttl p st now f t = (.ok r, st', 1) →
      st' = st.cacheSet (upperStr f ++ "-" ++ upperStr t) r now ∧
      List.lookup (upperStr f ++ "-" ++ upperStr t) st'.ratesCache =
        some (r, now) := by
    intro r st' h
    have hnet : (getExchangeRate ttl p st now f t).2.2 = 1 := by
      rw [h]
    have hfe := getExchangeRate_reached_provider hnet
    rw [hfe] at h
    obtain ⟨hst, -, -⟩ := fetchRate_ok_shape h
    refine ⟨hst, ?_⟩
    rw [hst]
    simp [RateState.cacheSet, List.lookup]
  refine ⟨fun q ts hl hfresh => getExchangeRate_hit hl hfresh, hstore, ?_⟩
  intro r st' t1 h hfresh
  obtain ⟨hst, hl⟩ := hstore r st' h
  exact getExchangeRate_hit hl hfresh

theorem getExchangeRate_caching_witness :
    getExchangeRate 3600 sampleProvider ⟨[]⟩ 0 "USD" "EUR" =
      (.ok (mkRat 9 10),
        RateState.cacheSet ⟨[]⟩ "USD-EUR" (mkRat 9 10) 0, 1)
    ∧ getExchangeRate 3600 sampleProvider
        (RateState.cacheSet ⟨[]⟩ "USD-EUR" (mkRat 9 10) 0) 1000 "USD" "EUR" =
      (.ok (mkRat 9 10),
        RateState.cacheSet ⟨[]⟩ "USD-EUR" (mkRat 9 10) 0, 0) :=
  ⟨rfl,
    (getExchangeRate_caching 3600 sampleProvider ⟨[]⟩ 0 "USD" "EUR").2.2
      (mkRat 9 10) (RateState.cacheSet ⟨[]⟩ "USD-EUR" (mkRat 9 10) 0) 1000
      rfl (by decide)⟩


/-! ### Validation and conversion lemmas -/

theorem fetchRate_calls (p : String → String → Except String LatestResponse)
    (st : RateState) (now : ℤ) (F T K : String) :
    (fetchRate p st now F T K).2.2 = 1 := by
  unfold fetchRate
  rcases p F T with e | resp
  · rfl
  · by_cases he : resp.rates.isEmpty = true
    · simp only [if_pos he]
    · simp only [if_neg he]
      rcases deriveRate resp F T with e | rate
      · rfl
      · by_cases hr : rate ≤ 0
        · simp only [if_pos hr]
        · simp only [if_neg hr]

theorem codeBad_false_iff (o : Option String) :
    codeBad o = false ↔ ∃ s, o = some s ∧ trimStr s ≠ "" ∧ s.length = 3 := by
  cases o with
  | none => simp [codeBad]
  | some s => simp [codeBad]

theorem amount_valid_iff (a : JNum) :
    ((a.falsy || a.leZero || !a.isFinite) = false ∧ a.gtQ 1000000000 = false) ↔
      ∃ q : ℚ, a = .num q ∧ 0 < q ∧ q ≤ 1000000000 := by
  cases a with
  | undef => simp [JNum.falsy, JNum.leZero, JNum.isFinite, JNum.gtQ]
  | nan => simp [JNum.falsy, JNum.leZero, JNum.isFinite, JNum.gtQ]
  | inf => simp [JNum.falsy, JNum.leZero, JNum.isFinite, JNum.gtQ]
  | ninf => simp [JNum.falsy, JNum.leZero, JNum.isFinite, JNum.gtQ]
  | num q =>
    simp only [JNum.falsy, JNum.leZero, JNum.isFinite, JNum.gtQ,
      Bool.not_true, Bool.or_false, Bool.or_eq_false_iff, beq_eq_false_iff_ne,
      ne_eq, decide_eq_false_iff_not, not_le, not_lt, JNum.num.injEq,
      exists_eq_left, exists_eq_left']
    constructor
    · rintro ⟨⟨-, h2⟩, h3⟩
      exact ⟨h2, h3⟩
    · rintro ⟨h1, h2⟩
      exact ⟨⟨h1.ne', h1⟩, h2⟩

/-! ### Currency conversion claim theorems -/

/-- C4 counterexample: the claim quantifies over all amounts, but amount 0
(from USD to USD) is rejected by validation — the call returns an error and
no conversion object, with no network call. -/
theorem convertCurrency_roundtrip_cex :
    convertCurrency 3600 (fun _ _ => .error "unreachable") ⟨[]⟩ 0 "t0"
      zeroAmountReq =
      (.error "Currency conversion failed: Amount must be a positive finite number",
        ⟨[]⟩, 0) := rfl

/-- C4 (amended): for every conversion request that passes validation and
whose currency codes agree case-insensitively, the conversion short-circuits:
convertedAmount equals the amount, the exchange rate is 1, the source is
"direct", and neither a network call nor a cache change happens. -/
theorem convertCurrency_roundtrip (ttl : ℤ)
    (p : String → String → Except String LatestResponse)
    (st : RateState) (now : ℤ) (iso : String) (req : ConversionRequest)
    (hv : validateConversionRequest req = none)
    (heq : upperStr (req.fromCurrency.getD "") =
      upperStr (req.toCurrency.getD "")) :
    ∃ c, convertCurrency ttl p st now iso req = (.ok c, st, 0)
      ∧ c.amount = req.amount.toQ
      ∧ c.convertedAmount = req.amount.toQ
      ∧ c.exchangeRate = 1
      ∧ c.source = "direct" := by
  refine ⟨CurrencyConversion.make req.amount.toQ (req.fromCurrency.getD "")
    (req.toCurrency.getD "") req.amount.toQ 1 iso "direct",
    ?_, rfl, rfl, rfl, rfl⟩
  unfold convertCurrency
  simp only [hv]
  rw [if_pos heq]

theorem convertCurrency_roundtrip_witness :
    (validateConversionRequest directReq = none
      ∧ upperStr (directReq.fromCurrency.getD "") =
          upperStr (directReq.toCurrency.getD ""))
    ∧ ∃ c, convertCurrency 3600 sampleProvider ⟨[]⟩ 0 "2024-01-01T00:00:00Z"
          directReq = (.ok c, ⟨[]⟩, 0)
        ∧ c.amount = directReq.amount.toQ
        ∧ c.convertedAmount = directReq.amount.toQ
        ∧ c.exchangeRate = 1
        ∧ c.source = "direct" :=
  ⟨⟨rfl, rfl⟩,
    convertCurrency_roundtrip 3600 sampleProvider ⟨[]⟩ 0
      "2024-01-01T00:00:00Z" directReq rfl rfl⟩

/-- C5 counterexample: `getExchangeRate` with the 2-character codes "US" and
"EU" does not fail validation — with a fresh cache entry under "US-EU" it
returns that rate successfully, before any validation could reject it. -/
theorem getExchangeRate_no_validation_cex :
    getExchangeRate 3600 (fun _ _ => .error "network down")
      ⟨[("US-EU", 42, 0)]⟩ 1 "US" "EU" =
      (.ok 42, ⟨[("US-EU", 42, 0)]⟩, 0) := rfl

/-- C5 (amended): `getExchangeRate` performs no presence/length validation of
the currency codes — code-shape validation lives only in `convertCurrency`'s
`validateConversionRequest`. Even for codes whose length differs from 3 it
proceeds straight to the cache lookup (returning a fresh entry) and, on a
miss, issues the network call. -/
theorem getExchangeRate_skips_validation (ttl : ℤ)
    (p : String → String → Except String LatestResponse)
    (st : RateState) (now : ℤ) (f t : String)
    (_hlen : f.length ≠ 3 ∨ t.length ≠ 3) :
    (∀ q ts, List.lookup (upperStr f ++ "-" ++ upperStr t) st.ratesCache =
        some (q, ts) → now - ts < ttl →
        getExchangeRate ttl p st now f t = (.ok q, st, 0))
    ∧ (List.lookup (upperStr f ++ "-" ++ upperStr t) st.ratesCache = none →
        (getExchangeRate ttl p st now f t).2.2 = 1) := by
  refine ⟨fun q ts hl hfresh => getExchangeRate_hit hl hfresh, ?_⟩
  intro hl
  unfold getExchangeRate
  simp only [hl]
  exact fetchRate_calls p st now (upperStr f) (upperStr t)
    (upperStr f ++ "-" ++ upperStr t)

theorem getExchangeRate_skips_validation_witness :
    ("US".length ≠ 3 ∨ "EU".length ≠ 3)
    ∧ ((∀ q ts, List.lookup (upperStr "US" ++ "-" ++ upperStr "EU")
          (RateState.mk [("US-EU", 42, 0)]).ratesCache = some (q, ts) →
          (1 : ℤ) - ts < 3600 →
          getExchangeRate 3600 (fun _ _ => .error "network down")
            ⟨[("US-EU", 42, 0)]⟩ 1 "US" "EU" =
            (.ok q, ⟨[("US-EU", 42, 0)]⟩, 0))
      ∧ (List.lookup (upperStr "US" ++ "-" ++ upperStr "EU")
          (RateState.mk [("US-EU", 42, 0)]).ratesCache = none →
          (getExchangeRate 3600 (fun _ _ => .error "network down")
            ⟨[("US-EU", 42, 0)]⟩ 1 "US" "EU").2.2 = 1)) :=
  ⟨Or.inl (by decide),
    getExchangeRate_skips_validation 3600 (fun _ _ => .error "network down")
      ⟨[("US-EU", 42, 0)]⟩ 1 "US" "EU" (Or.inl (by decide))⟩

/-- C6 counterexample: the code "AB1" is not a 3-letter code (it contains a
digit), yet validation accepts the request — the code checks only presence
and length 3, not letters. -/
theorem validateConversionRequest_letters_cex :
    validateConversionRequest digitCodeReq = none
    ∧ specIsThreeLetterCode "AB1" = false := ⟨rfl, rfl⟩

/-- C6 (amended): validation fails exactly when the amount is not a positive
finite number, exceeds 1,000,000,000, or either currency code is absent,
whitespace-only, or not exactly 3 characters long (alphabetic content is not
checked); and on failure `convertCurrency` returns the error, producing no
conversion and making no network call. -/
theorem validateConversionRequest_iff (r : ConversionRequest) :
    (validateConversionRequest r = none ↔
      ((∃ q : ℚ, r.amount = .num q ∧ 0 < q ∧ q ≤ 1000000000)
        ∧ (∃ s, r.fromCurrency = some s ∧ trimStr s ≠ "" ∧ s.length = 3)
        ∧ (∃ s, r.toCurrency = some s ∧ trimStr s ≠ "" ∧ s.length = 3)))
    ∧ (∀ e, validateConversionRequest r = some e →
        ∀ ttl p st now iso, convertCurrency ttl p st now iso r =
          (.error ("Currency conversion failed: " ++ e), st, 0)) := by
  constructor
  · constructor
    · intro h
      unfold validateConversionRequest at h
      cases hb1 : (r.amount.falsy || r.amount.leZero || !r.amount.isFinite) with
      | true => simp [hb1] at h
      | false =>
      simp only [hb1, Bool.false_eq_true, if_false] at h
      cases hb2 : r.amount.gtQ 1000000000 with
      | true => simp [hb2] at h
      | false =>
      simp only [hb2, Bool.false_eq_true, if_false] at h
      cases hb3 : codeBad r.fromCurrency with
      | true => simp [hb3] at h
      | false =>
      simp only [hb3, Bool.false_eq_true, if_false] at h
      cases hb4 : codeBad r.toCurrency with
      | true => simp [hb4] at h
      | false =>
      exact ⟨(amount_valid_iff r.amount).mp ⟨hb1, hb2⟩,
        (codeBad_false_iff r.fromCurrency).mp hb3,
        (codeBad_false_iff r.toCurrency).mp hb4⟩
    · rintro ⟨ha, hf, ht⟩
      have hb12 := (amount_valid_iff r.amount).mpr ha
      have hb3 := (codeBad_false_iff r.fromCurrency).mpr hf
      have hb4 := (codeBad_false_iff r.toCurrency).mpr ht
      simp [validateConversionRequest, hb12.1, hb12.2, hb3, hb4]
  · intro e he ttl p st now iso
    unfold convertCurrency
    simp only [he]

end Chatbot
